import Mathlib

set_option maxRecDepth 100000

/-!
Verification development for the Kugelaudio TTS sidecar
(`src/services/kugelaudio-tts/app.py`).

The file contains a shallow embedding of the service:

* Python strings are modelled by Lean `String` (a wrapper around `List Char`);
  `str.strip()` / `str.lower()` / `str.startswith` / `len` are re-implemented as
  structurally recursive functions over the character list so that every
  theorem can be evaluated by the kernel on concrete inputs.
* The process-wide globals `MODEL`, `PROCESSOR`, `DEVICE` (app.py lines 50-52)
  become the record `ServerState`; the startup configuration constants
  (lines 44-48) become the record `Config`.
* The external collaborators (the kugelaudio processor and engine, numpy,
  soundfile) are opaque to the service; they are modelled by an oracle record
  whose operations either return an opaque token or raise a Python exception
  (`PyExc`).  Quantifying theorems over the oracle quantifies over every
  possible behaviour of the engine, including every exception it can raise.
* The `/v1/tts` handler (lines 118-169) becomes the function `tts`, which also
  returns the sequence of `GENERATE_LOCK` acquire/release events produced by
  the `async with GENERATE_LOCK` block (lines 134-150): Python's `async with`
  acquires on entry and releases on every exit path, normal or exceptional.
* For the temporal claims a small cooperative-scheduling transition system is
  defined further below, reflecting that the handler is a single asyncio
  coroutine: control can move between requests only at suspension points.
-/

/-! ## Python string primitives -/

/-- Drop leading characters satisfying Python's `str.strip` whitespace test. -/
def dropSpace : List Char → List Char
  | [] => []
  | c :: cs => if c.isWhitespace then dropSpace cs else c :: cs

/-- `str.strip()` on the underlying character list: drop whitespace from both
ends (the right side via reversal). -/
def pyStripChars (cs : List Char) : List Char :=
  (dropSpace (dropSpace cs).reverse).reverse

/-- Python `text.strip()`. -/
def pyStrip (s : String) : String := ⟨pyStripChars s.data⟩

/-- Python `text.lower()` (ASCII case folding, which covers every string the
service compares). -/
def pyLower (s : String) : String := ⟨s.data.map Char.toLower⟩

/-- Auxiliary list test used by `pyStartsWith`. -/
def startsWithL : List Char → List Char → Bool
  | [], _ => true
  | _ :: _, [] => false
  | a :: as, b :: bs => a = b && startsWithL as bs

/-- Python `s.startswith(p)`. -/
def pyStartsWith (s p : String) : Bool := startsWithL p.data s.data

/-- Python `len(s)`: the number of characters. -/
def pyLen (s : String) : Nat := s.data.length

/-! ## Configuration and process-wide state (app.py lines 44-53) -/

/-- The startup configuration constants of app.py lines 44-48.
`DEFAULT_VOICE` is `(os.getenv(..) or "").strip() or None`, hence either
`none` or a non-empty string; nothing below depends on that invariant. -/
structure Config where
  MODEL_ID : String
  TEXT_MAX_CHARS : Nat
  DEFAULT_CFG_SCALE : Rat
  DEFAULT_MAX_TOKENS : Int
  DEFAULT_VOICE : Option String
deriving DecidableEq

/-- The process-wide mutable globals `MODEL`, `PROCESSOR`, `DEVICE`
(app.py lines 50-52).  The loaded engine and processor are opaque to the
service, so they are modelled as numeric tokens. -/
structure ServerState where
  MODEL : Option Nat
  PROCESSOR : Option Nat
  DEVICE : String
deriving DecidableEq

/-- A Python exception escaping one of the external calls, as distinguished by
the `except` chain of app.py lines 164-169: `ValueError`, `HTTPException`,
or any other `Exception` (carrying its `str()` rendering). -/
inductive PyExc
  | valueError (msg : String)
  | httpException (status : Nat) (detail : String)
  | otherError (msg : String)
deriving DecidableEq

/-! ## Device resolution (app.py lines 63-69) -/

/-- `resolve_device` (app.py lines 63-69).  `env_device` is
`os.getenv("KUGELAUDIO_DEVICE")`; `cuda_available` is
`torch.cuda.is_available()`. -/
def resolve_device (env_device : Option String) (cuda_available : Bool) : String :=
  let configured := pyLower (pyStrip (env_device.getD ""))
  if configured.data ≠ [] then
    if pyStartsWith configured "cuda" && !cuda_available then "cpu" else configured
  else if cuda_available then "cuda" else "cpu"

/-! ## Engine lifecycle (app.py lines 72-93) -/

/-- The environment and external loaders consulted by `ensure_loaded`.
`model_from_pretrained` models
`KugelAudioForConditionalGenerationInference.from_pretrained(MODEL_ID,
torch_dtype=dtype).to(DEVICE)` followed by `eval()` and `strip_encoders()`
(lines 83-88); it receives the model id and the chosen dtype name and either
returns the loaded engine token or raises.  `processor_from_pretrained`
models `KugelAudioProcessor.from_pretrained(MODEL_ID)` (line 90). -/
structure LoadOracle where
  env_device : Option String
  cuda_available : Bool
  model_from_pretrained : String → String → Except PyExc Nat
  processor_from_pretrained : String → Except PyExc Nat

/-- Observable load-time side effects, used to state that an operation
performs no (re)load. -/
inductive LoadEvent
  | loadModel
  | loadProcessor
deriving DecidableEq

/-- `ensure_loaded` (app.py lines 72-93) as a state transformer: returns the
new global state, the load actions performed, and the exception (if any)
escaping to the caller.  Mirrors the source order: the early return at
line 77-78, the `DEVICE` assignment at line 80 (which happens before any
load, so a failed load still leaves `DEVICE` updated), the dtype choice at
line 81, the model load, then the processor load, and only then the
publication of `MODEL`/`PROCESSOR` (lines 92-93). -/
def ensure_loaded (cfg : Config) (o : LoadOracle) (s : ServerState) :
    ServerState × List LoadEvent × Option PyExc :=
  if s.MODEL.isSome && s.PROCESSOR.isSome then (s, [], none)
  else
    let device := resolve_device o.env_device o.cuda_available
    let dtype := if pyStartsWith device "cuda" then "bfloat16" else "float32"
    match o.model_from_pretrained cfg.MODEL_ID dtype with
    | .error e => ({ s with DEVICE := device }, [LoadEvent.loadModel], some e)
    | .ok m =>
      match o.processor_from_pretrained cfg.MODEL_ID with
      | .error e => ({ s with DEVICE := device }, [LoadEvent.loadModel, LoadEvent.loadProcessor], some e)
      | .ok p =>
        ({ MODEL := some m, PROCESSOR := some p, DEVICE := device },
         [LoadEvent.loadModel, LoadEvent.loadProcessor], none)

/-! ## Health endpoint (app.py lines 109-115) -/

/-- The JSON body returned by `/healthz`. -/
structure HealthResponse where
  ok : Bool
  model : String
  device : String
deriving DecidableEq

/-- The `/healthz` handler (app.py lines 109-115), in the same
state-transformer shape as the other operations so that "mutates nothing,
loads nothing" is expressible: it returns the (unchanged) global state, the
load actions performed (none), and the response body. -/
def healthz (cfg : Config) (s : ServerState) :
    ServerState × List LoadEvent × HealthResponse :=
  (s, [],
   { ok := s.MODEL.isSome && s.PROCESSOR.isSome
     model := cfg.MODEL_ID
     device := s.DEVICE })

/-! ## Request model and parameter resolution (app.py lines 56-60, 129-131) -/

/-- The request body `TtsRequest` (app.py lines 56-60).  The pydantic
`min_length=1` constraint on `text` belongs to the excluded validation
framework and is not assumed anywhere below.  `cfgScale` is a Python float
with no NaN in any request the claims speak about, modelled as a rational;
`maxTokens` is a Python int. -/
structure TtsRequest where
  text : String
  voice : Option String
  cfgScale : Option Rat
  maxTokens : Option Int
deriving DecidableEq

/-- Line 129: `voice = (payload.voice or "").strip() or DEFAULT_VOICE`.
A `none` or whitespace-only request voice falls through to the process
default (itself possibly `none`). -/
def resolve_voice (cfg : Config) (p : TtsRequest) : Option String :=
  let v := pyStrip (p.voice.getD "")
  if v.data = [] then cfg.DEFAULT_VOICE else some v

/-- Line 130: `cfg_scale = payload.cfgScale if payload.cfgScale and
payload.cfgScale > 0 else DEFAULT_CFG_SCALE`.  Python truthiness makes `0.0`
fall through; the modelled condition `c ≠ 0 ∧ 0 < c` mirrors
`payload.cfgScale and payload.cfgScale > 0` literally. -/
def resolve_cfg_scale (cfg : Config) (p : TtsRequest) : Rat :=
  match p.cfgScale with
  | some c => if c ≠ 0 ∧ 0 < c then c else cfg.DEFAULT_CFG_SCALE
  | none => cfg.DEFAULT_CFG_SCALE

/-- Line 131: `max_tokens = payload.maxTokens if payload.maxTokens and
payload.maxTokens > 0 else DEFAULT_MAX_TOKENS`. -/
def resolve_max_tokens (cfg : Config) (p : TtsRequest) : Int :=
  match p.maxTokens with
  | some t => if t ≠ 0 ∧ 0 < t then t else cfg.DEFAULT_MAX_TOKENS
  | none => cfg.DEFAULT_MAX_TOKENS

/-! ## The generation pipeline (app.py lines 133-163) -/

/-- The behaviour of the external calls made inside the handler, one field per
source stage.  Tensors, model outputs and numpy arrays are opaque tokens.

* `encode`: `PROCESSOR(text=..., voice=..., return_tensors="pt")` plus the
  dict comprehension moving tensors to `DEVICE` (lines 135-143);
* `generate`: `MODEL.generate(**inputs, cfg_scale=..., max_new_tokens=...)`
  under `torch.no_grad()` (lines 145-150);
* `extract`: `outputs.speech_outputs[0]` and the tensor/array normalisation
  through `np.asarray(..., dtype=np.float32).squeeze()` (lines 152-158);
* `samplingRate`: `getattr(PROCESSOR.audio_processor, "sampling_rate", 24000)`
  (line 159), an attribute read that cannot raise thanks to the default;
* `wavEncode`: `sf.write(output, audio, sample_rate, format="WAV")` plus
  `output.getvalue()` (lines 161-163).

Every fallible stage may raise any `PyExc`; quantifying over the oracle
quantifies over all engine behaviours. -/
structure EngineOracle where
  encode : String → Option String → Except PyExc Nat
  generate : Nat → Rat → Int → Except PyExc Nat
  extract : Nat → Except PyExc Nat
  samplingRate : Option Int
  wavEncode : Nat → Int → Except PyExc (List Nat)

/-- The body of the `try` block (lines 134-163) stripped of its error
handling: run the stages in source order and stop at the first exception. -/
def run_pipeline (o : EngineOracle) (text : String) (voice : Option String)
    (cfg_scale : Rat) (max_tokens : Int) : Except PyExc (List Nat) := do
  let inputs ← o.encode text voice
  let outputs ← o.generate inputs cfg_scale max_tokens
  let audio ← o.extract outputs
  let sample_rate : Int := o.samplingRate.getD 24000
  o.wavEncode audio sample_rate

/-- The handler's outcome: either the 200 response with its body and media
type (line 163) or an `HTTPException` with status code and detail. -/
inductive TtsResult
  | response (body : List Nat) (mediaType : String)
  | httpError (status : Nat) (detail : String)
deriving DecidableEq

/-- The `except` chain of app.py lines 164-169: `ValueError` becomes a 400
with `str(error)` as detail, an `HTTPException` is re-raised unchanged, and
any other exception becomes a 500 whose detail wraps the cause. -/
def pyExcToHttp : PyExc → TtsResult
  | .valueError msg => .httpError 400 msg
  | .httpException status detail => .httpError status detail
  | .otherError msg => .httpError 500 ("TTS generation failed: " ++ msg)

/-- An acquire or release of `GENERATE_LOCK` performed by a request. -/
inductive GateEvent
  | acq
  | rel
deriving DecidableEq

/-- Net number of times the gate is still held after a sequence of gate
events (acquires minus releases). -/
def heldAfter (evs : List GateEvent) : Int :=
  evs.foldl (fun n e => match e with | .acq => n + 1 | .rel => n - 1) 0

/-- Client-fault (4xx validation) class, as mapped by the transport layer. -/
def isClientFault : TtsResult → Bool
  | .httpError 400 _ => true
  | _ => false

/-- Server-fault (500 generation-failure) class. -/
def isServerFault : TtsResult → Bool
  | .httpError 500 _ => true
  | _ => false

/-- The `/v1/tts` handler (app.py lines 118-169).  Returns the outcome
together with the `GENERATE_LOCK` events the request performed.  Structure,
in source order:

* lines 120-121: 503 when `MODEL` or `PROCESSOR` is `None` — no gate use;
* lines 123-127: trim, then the two validation failures — no gate use;
* lines 129-131: parameter resolution;
* lines 133-163: the `try` block.  `async with GENERATE_LOCK` (line 134)
  acquires the gate, runs `encode` and `generate`, and releases on every
  exit of the block, exceptional or not; the remaining stages run after the
  release, so every request that reaches the gate contributes exactly the
  trace `[acq, rel]` no matter which stage fails;
* lines 164-169: the `except` chain, applied via `pyExcToHttp`. -/
def tts (cfg : Config) (st : ServerState) (o : EngineOracle) (p : TtsRequest) :
    TtsResult × List GateEvent :=
  if st.MODEL.isNone || st.PROCESSOR.isNone then
    (.httpError 503 "Model is not loaded", [])
  else
    let text := pyStrip p.text
    if text.data = [] then
      (.httpError 400 "text must not be empty", [])
    else if pyLen text > cfg.TEXT_MAX_CHARS then
      (.httpError 400 ("text exceeds max length (" ++ toString cfg.TEXT_MAX_CHARS ++ ")"), [])
    else
      let voice := resolve_voice cfg p
      let cfg_scale := resolve_cfg_scale cfg p
      let max_tokens := resolve_max_tokens cfg p
      match run_pipeline o text voice cfg_scale max_tokens with
      | .ok body => (.response body "audio/wav", [.acq, .rel])
      | .error e => (pyExcToHttp e, [.acq, .rel])

/-!
## Cooperative concurrency model of concurrent `/v1/tts` requests

The handler is an `async def` coroutine on a single asyncio event loop, so
requests interleave only at suspension points.  Each request is modelled as a
sequence of atomic actions with explicit begin/end markers for the pipeline
stages of §4.4 of the spec (4 input encoding, 5 engine generation, 7 output
normalisation, 8 sample-rate read, plus the audio/WAV encoding), bracketted by
the `async with GENERATE_LOCK` acquire (line 134) and its scoped release
(after line 150).  Lines 152-163 run after the release.

Suspension points, conservatively over-approximating the real loop:

* a request blocked on `GENERATE_LOCK.acquire()` while the gate is held;
* the engine generation call, which §5 of the spec designates as a suspension
  point (in app.py line 146 the call actually blocks the loop, so the real
  system has strictly fewer interleavings than this model — every safety
  property proved over the model therefore holds of the code);
* the end of the handler.

Nowhere else can control change hands: in particular lines 152-163
(normalisation, sample-rate read, WAV encoding) contain no `await`, so once a
request resumes after generation it runs them to completion atomically.
-/

/-- One atomic action of a request coroutine.  `validate` covers lines
120-127, `resolveP` lines 129-131; `beginEnc`/`endEnc` bracket the processor
call (lines 135-143), `genStart`/`genEnd` the engine call (lines 145-150),
`beginNorm`/`endNorm` the output normalisation (lines 152-158),
`beginSR`/`endSR` the sample-rate read (line 159), `beginWav`/`endWav` the
WAV encoding (lines 161-162), and `respond` the return/raise out of the
handler. -/
inductive ReqAction
  | validate
  | resolveP
  | acquire
  | beginEnc
  | endEnc
  | genStart
  | genEnd
  | release
  | beginNorm
  | endNorm
  | beginSR
  | endSR
  | beginWav
  | endWav
  | respond
deriving DecidableEq

/-- The action sequence of a request whose pipeline succeeds. -/
def progOk : List ReqAction :=
  [.validate, .resolveP, .acquire, .beginEnc, .endEnc, .genStart, .genEnd,
   .release, .beginNorm, .endNorm, .beginSR, .endSR, .beginWav, .endWav, .respond]

/-- Input encoding raises: the `async with` block exits exceptionally,
releasing the gate, and the `except` chain answers. -/
def progEncFail : List ReqAction :=
  [.validate, .resolveP, .acquire, .beginEnc, .release, .respond]

/-- The engine call raises (the exception is delivered when the coroutine
resumes from the generation suspension). -/
def progGenFail : List ReqAction :=
  [.validate, .resolveP, .acquire, .beginEnc, .endEnc, .genStart, .genEnd,
   .release, .respond]

/-- Output normalisation (lines 152-158) raises, after the gate is gone. -/
def progNormFail : List ReqAction :=
  [.validate, .resolveP, .acquire, .beginEnc, .endEnc, .genStart, .genEnd,
   .release, .beginNorm, .respond]

/-- WAV encoding (lines 161-162) raises, after the gate is gone. -/
def progWavFail : List ReqAction :=
  [.validate, .resolveP, .acquire, .beginEnc, .endEnc, .genStart, .genEnd,
   .release, .beginNorm, .endNorm, .beginSR, .endSR, .beginWav, .respond]

/-- The request is answered during validation (not loaded, empty or too-long
text): the gate is never touched. -/
def progRejected : List ReqAction := [.validate, .respond]

/-- Which of the exit paths of the handler a given request takes; determined
by the request and the engine behaviour, and quantified over in the
mutual-exclusion theorems. -/
inductive Behavior
  | ok
  | encFail
  | genFail
  | normFail
  | wavFail
  | rejected
deriving DecidableEq

/-- The action sequence of a request with the given behaviour. -/
def progOf : Behavior → List ReqAction
  | .ok => progOk
  | .encFail => progEncFail
  | .genFail => progGenFail
  | .normFail => progNormFail
  | .wavFail => progWavFail
  | .rejected => progRejected

/-- Global state of the event loop: who holds `GENERATE_LOCK`, which request
coroutine currently occupies the loop (`none` while every request is
suspended or done), and each request's remaining actions. -/
structure Sys where
  lock : Option Nat
  running : Option Nat
  threads : List (List ReqAction)

/-- Precondition an action places on the gate: `acquire` needs it free,
`release` needs the actor to hold it (`async with` releases what it
acquired). -/
def lockPre (a : ReqAction) (i : Nat) (l : Option Nat) : Prop :=
  match a with
  | .acquire => l = none
  | .release => l = some i
  | _ => True

/-- Effect of an action on the gate. -/
def lockPost (a : ReqAction) (i : Nat) (l : Option Nat) : Option Nat :=
  match a with
  | .acquire => some i
  | .release => none
  | _ => l

/-- Actions after which the coroutine yields the loop: only the entry into
the engine generation call (§5's designated suspension point). -/
def suspends : ReqAction → Bool
  | .genStart => true
  | _ => false

/-- A suspended request may be scheduled onto the loop only when its next
action can make progress: a request parked at `acquire` stays parked while
the gate is held. -/
def schedOk (a : ReqAction) (l : Option Nat) : Prop :=
  match a with
  | .acquire => l = none
  | _ => True

/-- One transition of the event loop: schedule a suspended request, let the
running request perform its next atomic action (yielding the loop after a
suspending action or when it finishes), or park the running request on the
held gate. -/
inductive SysStep : Sys → Sys → Prop
  | sched (s : Sys) (i : Nat) (a : ReqAction) (r : List ReqAction)
      (hrun : s.running = none) (hthr : s.threads[i]? = some (a :: r))
      (hok : schedOk a s.lock) :
      SysStep s { s with running := some i }
  | act (s : Sys) (i : Nat) (a : ReqAction) (r : List ReqAction)
      (hrun : s.running = some i) (hthr : s.threads[i]? = some (a :: r))
      (hlock : lockPre a i s.lock) :
      SysStep s
        { lock := lockPost a i s.lock
          running := if suspends a || r.isEmpty then none else some i
          threads := s.threads.set i r }
  | block (s : Sys) (i : Nat) (r : List ReqAction)
      (hrun : s.running = some i) (hthr : s.threads[i]? = some (ReqAction.acquire :: r))
      (hheld : s.lock ≠ none) :
      SysStep s { s with running := none }

/-- Initial state: gate free, loop idle, every request at the start of its
program. -/
def initSys (ps : List (List ReqAction)) : Sys :=
  { lock := none, running := none, threads := ps }

/-- Reachability of a loop state from the initial state of the given request
programs. -/
def Reach (ps : List (List ReqAction)) (s : Sys) : Prop :=
  Relation.ReflTransGen SysStep (initSys ps) s

/-- A request whose remaining actions still contain the `release` but no
`acquire` is inside the `async with GENERATE_LOCK` block, i.e. holds the
gate. -/
def holdsLockB (r : List ReqAction) : Bool :=
  r.contains ReqAction.release && !(r.contains ReqAction.acquire)

/-- Next-action markers that place a request inside the gate-protected part
of the region (encoding, generating, or about to release). -/
def lockedHeads : List ReqAction := [.endEnc, .genStart, .genEnd, .release]

/-- Next-action markers that place a request in the post-release tail of the
region (normalisation, sample-rate read, WAV encoding). -/
def postHeads : List ReqAction := [.beginNorm, .endNorm, .beginSR, .endSR, .beginWav, .endWav]

/-- The request's next action marks it as inside the gate-protected part. -/
def lockedHeaded (r : List ReqAction) : Bool :=
  match r.head? with
  | some a => lockedHeads.contains a
  | none => false

/-- The request's next action marks it as inside the post-release part. -/
def postHeaded (r : List ReqAction) : Bool :=
  match r.head? with
  | some a => postHeads.contains a
  | none => false

/-- The request is currently executing one of steps 4-8 (it has begun input
encoding and not yet finished WAV encoding). -/
def inside48 (r : List ReqAction) : Bool := lockedHeaded r || postHeaded r

/-- The request is inside the engine generation call: it has performed
`genStart` and not yet `genEnd`. -/
def inGen (r : List ReqAction) : Bool := r.head? == some ReqAction.genEnd

/-- Local well-bracketing data for one program position, consumed by the
invariant-preservation proof: how consuming the head action changes
gate-holding, that the post-release region is entered only by `release` and
contains no suspension, and that the gate-protected region implies holding
the gate. -/
def wbStepP (a : ReqAction) (t : List ReqAction) : Prop :=
  (a = ReqAction.acquire → holdsLockB t = true) ∧
  (a = ReqAction.release → holdsLockB t = false) ∧
  (a ≠ ReqAction.acquire → a ≠ ReqAction.release → holdsLockB t = holdsLockB (a :: t)) ∧
  (postHeaded t = true →
    suspends a = false ∧ (a = ReqAction.release ∨ postHeaded (a :: t) = true)) ∧
  (lockedHeaded (a :: t) = true → holdsLockB (a :: t) = true)

instance (a : ReqAction) (t : List ReqAction) : Decidable (wbStepP a t) :=
  inferInstanceAs (Decidable (_ ∧ _))

/-- `wbStepP` at an arbitrary program position. -/
def wbAt : List ReqAction → Prop
  | [] => True
  | a :: t => wbStepP a t

instance : (r : List ReqAction) → Decidable (wbAt r)
  | [] => isTrue trivial
  | _ :: _ => inferInstanceAs (Decidable (wbStepP _ _))

/-- A request program is admissible: every position is well-bracketted and
the program starts outside the gate and outside the post-release region. -/
def wbProg (p : List ReqAction) : Prop :=
  (∀ r ∈ p.tails, wbAt r) ∧ holdsLockB p = false ∧ postHeaded p = false

instance (p : List ReqAction) : Decidable (wbProg p) :=
  inferInstanceAs (Decidable (_ ∧ _))

/-- The inductive invariant of the loop: thread list length is fixed, every
request sits on a suffix of its program, a request holds the gate exactly
when the gate records it, and a request in the post-release region is the
one occupying the loop while the gate is free. -/
def LoopInv (ps : List (List ReqAction)) (s : Sys) : Prop :=
  s.threads.length = ps.length ∧
  (∀ (i : Nat) (r : List ReqAction), s.threads[i]? = some r →
    ∃ p : List ReqAction, ps[i]? = some p ∧ r <:+ p) ∧
  (∀ (i : Nat) (r : List ReqAction), s.threads[i]? = some r →
    (holdsLockB r = true ↔ s.lock = some i)) ∧
  (∀ (i : Nat) (r : List ReqAction), s.threads[i]? = some r → postHeaded r = true →
    s.running = some i ∧ s.lock = none)

/-! ## Concrete instances used by witnesses and counterexamples -/

/-- The documented default configuration (app.py lines 44-48 with no
environment overrides). -/
def cfgEx : Config :=
  { MODEL_ID := "kugelaudio/kugelaudio-0-open"
    TEXT_MAX_CHARS := 4000
    DEFAULT_CFG_SCALE := 3
    DEFAULT_MAX_TOKENS := 2048
    DEFAULT_VOICE := none }

/-- A state in which engine and processor are loaded. -/
def stLoaded : ServerState := { MODEL := some 1, PROCESSOR := some 2, DEVICE := "cpu" }

/-- The state before the first load. -/
def stUnloaded : ServerState := { MODEL := none, PROCESSOR := none, DEVICE := "cpu" }

/-- An engine that completes every stage. -/
def oracleOk : EngineOracle :=
  { encode := fun _ _ => .ok 10
    generate := fun _ _ _ => .ok 11
    extract := fun _ => .ok 12
    samplingRate := some 24000
    wavEncode := fun _ _ => .ok [82, 73, 70, 70] }

/-- An engine whose generation call raises a generic exception. -/
def oracleGenBoom : EngineOracle :=
  { oracleOk with generate := fun _ _ _ => .error (.otherError "boom") }

/-- An engine whose generation call raises a `ValueError`. -/
def oracleGenValueErr : EngineOracle :=
  { oracleOk with generate := fun _ _ _ => .error (.valueError "cfg scale out of range") }

/-- An engine whose input-encoding stage raises a `ValueError`. -/
def oracleEncValueErr : EngineOracle :=
  { oracleOk with encode := fun _ _ => .error (.valueError "voice not recognized") }

/-- A plain valid request. -/
def reqPlain : TtsRequest := { text := "hello world", voice := none, cfgScale := none, maxTokens := none }

/-- A valid request with every optional field set. -/
def reqFull : TtsRequest :=
  { text := " hello ", voice := some " anna ", cfgScale := some 5, maxTokens := some 256 }

/-- A request whose text is whitespace only (empty after trim). -/
def reqBlank : TtsRequest := { text := "   ", voice := none, cfgScale := none, maxTokens := none }

/-! ## Claim theorems: device resolution, lifecycle, health -/

/-- C7: if a device override is configured (non-empty after trim/lowercase)
and requests a cuda device while cuda is unavailable, `resolve_device`
silently selects "cpu"; with no override it selects "cuda" exactly when cuda
is available, and "cpu" otherwise. -/
theorem resolve_device_policy (env : Option String) (avail : Bool) :
    ((pyLower (pyStrip (env.getD ""))).data ≠ [] →
      pyStartsWith (pyLower (pyStrip (env.getD ""))) "cuda" = true →
      avail = false →
      resolve_device env avail = "cpu") ∧
    ((pyLower (pyStrip (env.getD ""))).data = [] →
      (resolve_device env avail = "cuda" ↔ avail = true) ∧
      (avail = false → resolve_device env avail = "cpu")) := by
  constructor
  · intro h1 h2 h3
    subst h3
    simp [resolve_device, h1, h2]
  · intro h1
    constructor
    · cases avail <;> simp [resolve_device, h1]
    · intro h3
      subst h3
      simp [resolve_device, h1]

/-- Witness for `resolve_device_policy`: with override " CUDA:1 " and cuda
unavailable the device is "cpu"; with no override it is "cuda" exactly when
available. -/
theorem resolve_device_policy_witness :
    resolve_device (some " CUDA:1 ") false = "cpu" ∧
    (resolve_device none true = "cuda" ↔ true = true) := by
  refine ⟨(resolve_device_policy (some " CUDA:1 ") false).1 (by decide) (by decide) rfl,
          ((resolve_device_policy none true).2 (by decide)).1⟩

/-- C10: a configured override that is non-empty after trim/lowercase and
does not start with "cuda" is returned unchanged, with no availability
check: the result is the same whether or not cuda is available. -/
theorem resolve_device_non_cuda_override (env : Option String) (avail : Bool)
    (h1 : (pyLower (pyStrip (env.getD ""))).data ≠ [])
    (h2 : pyStartsWith (pyLower (pyStrip (env.getD ""))) "cuda" = false) :
    resolve_device env avail = pyLower (pyStrip (env.getD "")) ∧
    resolve_device env true = resolve_device env false := by
  refine ⟨?_, ?_⟩ <;> simp [resolve_device, h1, h2]

/-- Witness for `resolve_device_non_cuda_override`: the override " MPS "
resolves to "mps" regardless of cuda availability. -/
theorem resolve_device_non_cuda_override_witness :
    resolve_device (some " MPS ") false = "mps" ∧
    resolve_device (some " MPS ") true = resolve_device (some " MPS ") false := by
  have h := resolve_device_non_cuda_override (some " MPS ") false (by decide) (by decide)
  exact ⟨h.1, h.2⟩

/-- C8: `ensure_loaded` is idempotent: when both the engine and the
processor are already loaded it returns immediately, leaving the whole
state (engine, processor, device) unchanged, performing no load action and
raising nothing. -/
theorem ensure_loaded_idempotent (cfg : Config) (o : LoadOracle) (s : ServerState)
    (hm : s.MODEL.isSome = true) (hp : s.PROCESSOR.isSome = true) :
    ensure_loaded cfg o s = (s, [], none) := by
  simp [ensure_loaded, hm, hp]

/-- Witness for `ensure_loaded_idempotent` at the loaded state. -/
theorem ensure_loaded_idempotent_witness :
    ensure_loaded cfgEx
      { env_device := none, cuda_available := false
        model_from_pretrained := fun _ _ => .ok 7
        processor_from_pretrained := fun _ => .ok 8 } stLoaded = (stLoaded, [], none) :=
  ensure_loaded_idempotent cfgEx _ stLoaded (by decide) (by decide)

/-- C9: `healthz` never loads and never mutates the process-wide state: in
every state it returns the state unchanged, performs no load action, and
reports ready exactly when both engine and processor are loaded, together
with the configured model identifier and the current device. -/
theorem healthz_reports_without_loading (cfg : Config) (s : ServerState) :
    (healthz cfg s).1 = s ∧
    (healthz cfg s).2.1 = ([] : List LoadEvent) ∧
    ((healthz cfg s).2.2.ok = true ↔ (s.MODEL.isSome = true ∧ s.PROCESSOR.isSome = true)) ∧
    (healthz cfg s).2.2.model = cfg.MODEL_ID ∧
    (healthz cfg s).2.2.device = s.DEVICE := by
  refine ⟨rfl, rfl, ?_, rfl, rfl⟩
  simp [healthz]

/-- C6: parameter resolution is first-match-wins per field: the voice is the
trimmed request voice when non-empty and otherwise the process default; the
cfg scale is the request value when present and positive and otherwise the
default; likewise for max tokens. -/
theorem parameter_resolution_first_match (cfg : Config) (p : TtsRequest) :
    ((pyStrip (p.voice.getD "")).data ≠ [] →
      resolve_voice cfg p = some (pyStrip (p.voice.getD ""))) ∧
    ((pyStrip (p.voice.getD "")).data = [] → resolve_voice cfg p = cfg.DEFAULT_VOICE) ∧
    (∀ c : Rat, p.cfgScale = some c → 0 < c → resolve_cfg_scale cfg p = c) ∧
    (∀ c : Rat, p.cfgScale = some c → ¬0 < c →
      resolve_cfg_scale cfg p = cfg.DEFAULT_CFG_SCALE) ∧
    (p.cfgScale = none → resolve_cfg_scale cfg p = cfg.DEFAULT_CFG_SCALE) ∧
    (∀ t : Int, p.maxTokens = some t → 0 < t → resolve_max_tokens cfg p = t) ∧
    (∀ t : Int, p.maxTokens = some t → ¬0 < t →
      resolve_max_tokens cfg p = cfg.DEFAULT_MAX_TOKENS) ∧
    (p.maxTokens = none → resolve_max_tokens cfg p = cfg.DEFAULT_MAX_TOKENS) := by
  refine ⟨?_, ?_, ?_, ?_, ?_, ?_, ?_, ?_⟩
  · intro h
    simp [resolve_voice, h]
  · intro h
    simp [resolve_voice, h]
  · intro c hc hpos
    simp [resolve_cfg_scale, hc, hpos, ne_of_gt hpos]
  · intro c hc hpos
    simp [resolve_cfg_scale, hc, hpos]
  · intro hc
    simp [resolve_cfg_scale, hc]
  · intro t ht hpos
    simp [resolve_max_tokens, ht, hpos, ne_of_gt hpos]
  · intro t ht hpos
    simp [resolve_max_tokens, ht, hpos]
  · intro ht
    simp [resolve_max_tokens, ht]

/-- Witness for `parameter_resolution_first_match`: on a request carrying
voice " anna ", cfgScale 5 and maxTokens 256 the request values win (the
voice trimmed); on a request carrying none of them the defaults win. -/
theorem parameter_resolution_first_match_witness :
    resolve_voice cfgEx reqFull = some "anna" ∧
    resolve_cfg_scale cfgEx reqFull = 5 ∧
    resolve_max_tokens cfgEx reqFull = 256 ∧
    resolve_voice cfgEx reqPlain = none ∧
    resolve_cfg_scale cfgEx reqPlain = 3 ∧
    resolve_max_tokens cfgEx reqPlain = 2048 := by
  have hFull := parameter_resolution_first_match cfgEx reqFull
  have hPlain := parameter_resolution_first_match cfgEx reqPlain
  refine ⟨?_, ?_, ?_, ?_, ?_, ?_⟩
  · have := hFull.1 (by decide)
    simpa using this
  · exact hFull.2.2.1 5 rfl (by norm_num)
  · exact hFull.2.2.2.2.2.1 256 rfl (by norm_num)
  · have := hPlain.2.1 (by decide)
    simpa [cfgEx] using this
  · exact hPlain.2.2.2.2.1 rfl
  · exact hPlain.2.2.2.2.2.2.2 rfl

/-! ## Claim theorems: the `/v1/tts` handler -/

/-- C1: every request that reaches gate acquisition (engine loaded,
validation passed) acquires the gate once and releases it exactly once, no
matter how the engine behaves — including when input encoding, the engine
call, normalisation or WAV encoding raises — so the gate is never left held
and ends the request free. -/
theorem tts_gate_released_once (cfg : Config) (st : ServerState) (o : EngineOracle)
    (p : TtsRequest) (hm : st.MODEL.isSome = true) (hp : st.PROCESSOR.isSome = true)
    (hne : (pyStrip p.text).data ≠ []) (hlen : pyLen (pyStrip p.text) ≤ cfg.TEXT_MAX_CHARS) :
    (tts cfg st o p).2 = [GateEvent.acq, GateEvent.rel] ∧
    heldAfter (tts cfg st o p).2 = 0 := by
  have hmn : st.MODEL.isNone = false := by cases h : st.MODEL <;> simp_all
  have hpn : st.PROCESSOR.isNone = false := by cases h : st.PROCESSOR <;> simp_all
  have hlen' : ¬pyLen (pyStrip p.text) > cfg.TEXT_MAX_CHARS := Nat.not_lt.mpr hlen
  cases hrp : run_pipeline o (pyStrip p.text) (resolve_voice cfg p) (resolve_cfg_scale cfg p)
      (resolve_max_tokens cfg p) <;>
    simp [tts, hmn, hpn, hne, hlen', hrp, heldAfter]

/-- Witness for `tts_gate_released_once`, on a request whose engine call
raises: the gate trace is still exactly one acquire followed by one
release. -/
theorem tts_gate_released_once_witness :
    (tts cfgEx stLoaded oracleGenBoom reqPlain).2 = [GateEvent.acq, GateEvent.rel] ∧
    heldAfter (tts cfgEx stLoaded oracleGenBoom reqPlain).2 = 0 :=
  tts_gate_released_once cfgEx stLoaded oracleGenBoom reqPlain (by decide) (by decide)
    (by decide) (by decide)

/-- C4 (amended): for a request that passes validation with the engine
loaded, an exception during steps 4-8 that is not a `ValueError` (nor an
`HTTPException`) is surfaced as status 500 wrapping the cause — while a
`ValueError` raised during those same steps is surfaced as status 400 with
its own message, i.e. in the client-fault class. -/
theorem tts_exception_surfacing (cfg : Config) (st : ServerState) (o : EngineOracle)
    (p : TtsRequest) (hm : st.MODEL.isSome = true) (hp : st.PROCESSOR.isSome = true)
    (hne : (pyStrip p.text).data ≠ []) (hlen : pyLen (pyStrip p.text) ≤ cfg.TEXT_MAX_CHARS) :
    (∀ msg : String,
      run_pipeline o (pyStrip p.text) (resolve_voice cfg p) (resolve_cfg_scale cfg p)
          (resolve_max_tokens cfg p) = .error (PyExc.otherError msg) →
      (tts cfg st o p).1 = TtsResult.httpError 500 ("TTS generation failed: " ++ msg) ∧
      isServerFault (tts cfg st o p).1 = true) ∧
    (∀ msg : String,
      run_pipeline o (pyStrip p.text) (resolve_voice cfg p) (resolve_cfg_scale cfg p)
          (resolve_max_tokens cfg p) = .error (PyExc.valueError msg) →
      (tts cfg st o p).1 = TtsResult.httpError 400 msg ∧
      isClientFault (tts cfg st o p).1 = true) := by
  have hmn : st.MODEL.isNone = false := by cases h : st.MODEL <;> simp_all
  have hpn : st.PROCESSOR.isNone = false := by cases h : st.PROCESSOR <;> simp_all
  have hlen' : ¬pyLen (pyStrip p.text) > cfg.TEXT_MAX_CHARS := Nat.not_lt.mpr hlen
  constructor <;> intro msg hrp <;>
    simp [tts, hmn, hpn, hne, hlen', hrp, pyExcToHttp, isServerFault, isClientFault]

/-- Witness for `tts_exception_surfacing`: a generic engine failure "boom"
is surfaced as the 500 wrapping it. -/
theorem tts_exception_surfacing_witness :
    (tts cfgEx stLoaded oracleGenBoom reqPlain).1 =
      TtsResult.httpError 500 "TTS generation failed: boom" ∧
    isServerFault (tts cfgEx stLoaded oracleGenBoom reqPlain).1 = true := by
  have h := tts_exception_surfacing cfgEx stLoaded oracleGenBoom reqPlain (by decide)
    (by decide) (by decide) (by decide)
  exact h.1 "boom" rfl

/-- C4 counterexample: with the engine loaded and a valid request, a
`ValueError` raised by the engine's generation call (step 5) is surfaced
with status 400 — the client-fault / validation class — and not as a 500
server fault, refuting "never as a ValidationError / client-fault-class
error". -/
theorem generation_error_class_counterexample :
    (tts cfgEx stLoaded oracleGenValueErr reqPlain).1 =
      TtsResult.httpError 400 "cfg scale out of range" ∧
    isClientFault (tts cfgEx stLoaded oracleGenValueErr reqPlain).1 = true ∧
    isServerFault (tts cfgEx stLoaded oracleGenValueErr reqPlain).1 = false ∧
    stLoaded.MODEL.isSome = true ∧
    stLoaded.PROCESSOR.isSome = true ∧
    (pyStrip reqPlain.text).data ≠ [] ∧
    pyLen (pyStrip reqPlain.text) ≤ cfgEx.TEXT_MAX_CHARS := by
  refine ⟨rfl, rfl, rfl, rfl, rfl, by decide, by decide⟩

/-- C5 (amended): with the engine loaded, a request fails at the validation
stage — before the gate is ever touched — exactly when its text is empty
after trimming or longer than the configured ceiling; the empty-text failure
carries the fixed message (and is never a 500 generation error), and the
too-long failure's message references the ceiling value. -/
theorem tts_validation_stage (cfg : Config) (st : ServerState) (o : EngineOracle)
    (p : TtsRequest) (hm : st.MODEL.isSome = true) (hp : st.PROCESSOR.isSome = true) :
    (((pyStrip p.text).data = [] ∨ pyLen (pyStrip p.text) > cfg.TEXT_MAX_CHARS) ↔
      (tts cfg st o p).2 = []) ∧
    ((pyStrip p.text).data = [] →
      (tts cfg st o p).1 = TtsResult.httpError 400 "text must not be empty" ∧
      isServerFault (tts cfg st o p).1 = false) ∧
    ((pyStrip p.text).data ≠ [] → pyLen (pyStrip p.text) > cfg.TEXT_MAX_CHARS →
      (tts cfg st o p).1 =
        TtsResult.httpError 400 ("text exceeds max length (" ++ toString cfg.TEXT_MAX_CHARS ++ ")")) := by
  have hmn : st.MODEL.isNone = false := by cases h : st.MODEL <;> simp_all
  have hpn : st.PROCESSOR.isNone = false := by cases h : st.PROCESSOR <;> simp_all
  by_cases he : (pyStrip p.text).data = []
  · refine ⟨?_, fun _ => ?_, fun hne _ => absurd he hne⟩
    · simp [tts, hmn, hpn, he]
    · simp [tts, hmn, hpn, he, isServerFault]
  · by_cases hl : pyLen (pyStrip p.text) > cfg.TEXT_MAX_CHARS
    · refine ⟨?_, fun h => absurd h he, fun _ _ => ?_⟩
      · simp [tts, hmn, hpn, he, hl]
      · simp [tts, hmn, hpn, he, hl]
    · refine ⟨?_, fun h => absurd h he, fun _ hl2 => absurd hl2 hl⟩
      cases hrp : run_pipeline o (pyStrip p.text) (resolve_voice cfg p) (resolve_cfg_scale cfg p)
          (resolve_max_tokens cfg p) <;>
        simp [tts, hmn, hpn, he, hl, hrp]

/-- Witness for `tts_validation_stage`: the whitespace-only request fails
with the fixed empty-text 400 and no gate events; the valid request "hello
world" does acquire the gate (non-empty trace). -/
theorem tts_validation_stage_witness :
    (tts cfgEx stLoaded oracleOk reqBlank).1 =
      TtsResult.httpError 400 "text must not be empty" ∧
    (tts cfgEx stLoaded oracleOk reqBlank).2 = [] ∧
    ¬(tts cfgEx stLoaded oracleOk reqPlain).2 = [] := by
  have hBlank := tts_validation_stage cfgEx stLoaded oracleOk reqBlank (by decide) (by decide)
  have hPlain := tts_validation_stage cfgEx stLoaded oracleOk reqPlain (by decide) (by decide)
  refine ⟨(hBlank.2.1 (by decide)).1, hBlank.1.mp (Or.inl (by decide)), ?_⟩
  intro h
  rcases hPlain.1.mpr h with h1 | h1
  · exact absurd h1 (by decide)
  · exact absurd h1 (by decide)

/-- C5 counterexample: (a) with the engine loaded and a perfectly valid
text, a `ValueError` from input encoding is surfaced with the same 400
client-fault class as a validation failure, so "fails with a
ValidationError" does not imply "empty or too long"; (b) with the engine
not loaded, an empty-after-trim text is answered 503 (not-ready), not with
a ValidationError, so the converse implication fails too. -/
theorem validation_iff_counterexample :
    (tts cfgEx stLoaded oracleEncValueErr reqPlain).1 =
      TtsResult.httpError 400 "voice not recognized" ∧
    isClientFault (tts cfgEx stLoaded oracleEncValueErr reqPlain).1 = true ∧
    (pyStrip reqPlain.text).data ≠ [] ∧
    pyLen (pyStrip reqPlain.text) ≤ cfgEx.TEXT_MAX_CHARS ∧
    (tts cfgEx stUnloaded oracleOk reqBlank).1 =
      TtsResult.httpError 503 "Model is not loaded" ∧
    (pyStrip reqBlank.text).data = [] ∧
    isClientFault (tts cfgEx stUnloaded oracleOk reqBlank).1 = false := by
  refine ⟨rfl, rfl, by decide, by decide, rfl, rfl, rfl⟩

/-! ## Invariant lemmas for the concurrency model -/

/-- An element delivered by an index lookup is a member of the list. -/
theorem memOfGet {α : Type} {l : List α} {i : Nat} {a : α} (h : l[i]? = some a) : a ∈ l := by
  obtain ⟨hlt, hv⟩ := List.getElem?_eq_some_iff.1 h
  exact hv ▸ List.getElem_mem hlt

/-- Every non-empty suffix of an admissible program is well-bracketted. -/
theorem wbStepP_of_suffix {p t : List ReqAction} {a : ReqAction}
    (hw : wbProg p) (hs : (a :: t) <:+ p) : wbStepP a t :=
  hw.1 (a :: t) ((List.mem_tails _ _).2 hs)

/-- `acquire` can never be the head of a post-release position. -/
theorem postHeaded_cons_acquire (t : List ReqAction) :
    postHeaded (ReqAction.acquire :: t) = false := by
  simp [postHeaded, postHeads]

/-- A post-release position is non-empty. -/
theorem not_isEmpty_of_postHeaded {r : List ReqAction} (h : postHeaded r = true) :
    r.isEmpty = false := by
  cases r with
  | nil => simp [postHeaded] at h
  | cons a t => rfl

/-- A post-release head is neither `acquire` nor `release`. -/
theorem post_head_not_lockReqAction {a : ReqAction} {t : List ReqAction}
    (h : postHeaded (a :: t) = true) :
    a ≠ ReqAction.acquire ∧ a ≠ ReqAction.release := by
  cases a <;> simp_all [postHeaded, postHeads]

/-- Consuming `acquire` enters the gate-held bracket. -/
theorem holdsLockB_cons_acquire (t : List ReqAction) :
    holdsLockB (ReqAction.acquire :: t) = false := by
  simp [holdsLockB]

/-- `lockPost` leaves the gate untouched for every action except
`acquire`/`release`. -/
theorem lockPost_other {a : ReqAction} (i : Nat) (l : Option Nat)
    (h1 : a ≠ ReqAction.acquire) (h2 : a ≠ ReqAction.release) : lockPost a i l = l := by
  cases a <;> first
    | rfl
    | exact absurd rfl h1
    | exact absurd rfl h2

/-- A position inside the engine call is inside the gate-protected part. -/
theorem lockedHeaded_of_inGen {r : List ReqAction} (h : inGen r = true) :
    lockedHeaded r = true := by
  cases r with
  | nil => simp [inGen] at h
  | cons a t =>
    have : a = ReqAction.genEnd := by simpa [inGen] using h
    subst this
    simp [lockedHeaded, lockedHeads]

/-- The invariant holds initially. -/
theorem loopInv_init (ps : List (List ReqAction)) (hwb : ∀ p ∈ ps, wbProg p) :
    LoopInv ps (initSys ps) := by
  refine ⟨rfl, ?_, ?_, ?_⟩
  · intro i r hr
    exact ⟨r, hr, List.suffix_rfl⟩
  · intro i r hr
    have hstart := (hwb r (memOfGet hr)).2.1
    constructor
    · intro h
      rw [hstart] at h
      cases h
    · intro h
      cases h
  · intro i r hr hpost
    have hstart := (hwb r (memOfGet hr)).2.2
    rw [hstart] at hpost
    cases hpost

/-- The invariant is preserved by every loop transition. -/
theorem loopInv_step {ps : List (List ReqAction)} {s s' : Sys}
    (hwb : ∀ p ∈ ps, wbProg p) (hinv : LoopInv ps s) (hstep : SysStep s s') :
    LoopInv ps s' := by
  obtain ⟨hlen, hsuf, hlock, hpost⟩ := hinv
  cases hstep with
  | sched i a r hrun hthr hok =>
    refine ⟨hlen, hsuf, hlock, ?_⟩
    intro j rj hj hpostj
    have h1 := (hpost j rj hj hpostj).1
    rw [hrun] at h1
    cases h1
  | block i r hrun hthr hheld =>
    refine ⟨hlen, hsuf, hlock, ?_⟩
    intro j rj hj hpostj
    have h1 := (hpost j rj hj hpostj).1
    rw [hrun] at h1
    injection h1 with h1
    subst h1
    rw [hthr] at hj
    injection hj with hj
    rw [← hj, postHeaded_cons_acquire] at hpostj
    cases hpostj
  | act i a r hrun hthr hlockpre =>
    obtain ⟨p, hpi, hsufi⟩ := hsuf i (a :: r) hthr
    have hw : wbProg p := hwb p (memOfGet hpi)
    have hwstep : wbStepP a r := wbStepP_of_suffix hw hsufi
    have hgi : (s.threads.set i r)[i]? = some r := by
      rw [List.getElem?_set_self']
      rw [hthr]
      rfl
    have hgne : ∀ j : Nat, j ≠ i → (s.threads.set i r)[j]? = s.threads[j]? := by
      intro j hne
      exact List.getElem?_set_ne (Ne.symm hne)
    refine ⟨?_, ?_, ?_, ?_⟩
    · rw [List.length_set]
      exact hlen
    · intro j rj hj
      by_cases hji : j = i
      · subst hji
        rw [hgi] at hj
        injection hj with hj
        subst hj
        exact ⟨p, hpi, (List.suffix_cons a r).trans hsufi⟩
      · rw [hgne j hji] at hj
        exact hsuf j rj hj
    · intro j rj hj
      by_cases hji : j = i
      · subst hji
        rw [hgi] at hj
        injection hj with hj
        subst hj
        by_cases ha1 : a = ReqAction.acquire
        · subst ha1
          have hq := hwstep.1 rfl
          simp [lockPost, hq]
        · by_cases ha2 : a = ReqAction.release
          · subst ha2
            have hq := hwstep.2.1 rfl
            simp [lockPost, hq]
          · rw [lockPost_other j s.lock ha1 ha2]
            rw [hwstep.2.2.1 ha1 ha2]
            exact hlock j (a :: r) hthr
      · rw [hgne j hji] at hj
        have hold := hlock j rj hj
        by_cases ha1 : a = ReqAction.acquire
        · subst ha1
          rw [hlockpre] at hold
          simp only [lockPost]
          constructor
          · intro h
            cases hold.mp h
          · intro h
            exact (hji (Option.some.inj h).symm).elim
        · by_cases ha2 : a = ReqAction.release
          · subst ha2
            rw [hlockpre] at hold
            simp only [lockPost]
            constructor
            · intro h
              exact (hji (Option.some.inj (hold.mp h)).symm).elim
            · intro h
              cases h
          · rw [lockPost_other i s.lock ha1 ha2]
            exact hold
    · intro j rj hj hpostj
      by_cases hji : j = i
      · subst hji
        rw [hgi] at hj
        injection hj with hj
        subst hj
        obtain ⟨hnsusp, hdisj⟩ := hwstep.2.2.2.1 hpostj
        constructor
        · rw [hnsusp, not_isEmpty_of_postHeaded hpostj]
          rfl
        · rcases hdisj with hrel | hpostcons
          · subst hrel
            rfl
          · obtain ⟨hna, hnr⟩ := post_head_not_lockReqAction hpostcons
            rw [lockPost_other j s.lock hna hnr]
            exact (hpost j (a :: r) hthr hpostcons).2
      · rw [hgne j hji] at hj
        have h1 := (hpost j rj hj hpostj).1
        rw [hrun] at h1
        exact (hji (Option.some.inj h1).symm).elim

/-- Every reachable loop state satisfies the invariant. -/
theorem reach_loopInv {ps : List (List ReqAction)} (hwb : ∀ p ∈ ps, wbProg p)
    {s : Sys} (h : Reach ps s) : LoopInv ps s := by
  unfold Reach at h
  induction h with
  | refl => exact loopInv_init ps hwb
  | tail hab hbc ih => exact loopInv_step hwb ih hbc

/-- Every program a request can follow is admissible. -/
theorem wbProg_progOf (b : Behavior) : wbProg (progOf b) := by
  cases b <;> decide

/-- A request whose next action lies in the gate-protected part of the
region holds the gate, so the gate records exactly that request. -/
theorem locked_head_lock {ps : List (List ReqAction)} (hwb : ∀ p ∈ ps, wbProg p)
    {s : Sys} (hinv : LoopInv ps s) {k : Nat} {rk : List ReqAction}
    (hk : s.threads[k]? = some rk) (hlk : lockedHeaded rk = true) : s.lock = some k := by
  obtain ⟨hlen, hsuf, hlock, hpost⟩ := hinv
  obtain ⟨p, hpk, hsufk⟩ := hsuf k rk hk
  cases rk with
  | nil => simp [lockedHeaded] at hlk
  | cons a t =>
    have hws := wbStepP_of_suffix (hwb p (memOfGet hpk)) hsufk
    exact (hlock k (a :: t) hk).mp (hws.2.2.2.2 hlk)

/-! ## Claim theorems: mutual exclusion of concurrent requests -/

/-- C2: in every reachable state of the event loop, under any number of
concurrent requests with any behaviours, at most one request is inside
steps 4-8 (input encoding, engine generation, output normalisation,
sample-rate read, WAV encoding): two requests both inside the region are
the same request.  The gate enforces this for encoding/generation; for the
post-release steps it follows from the absence of suspension points after
the release (run-to-completion of the coroutine). -/
theorem pipeline_steps_mutually_exclusive (bs : List Behavior) (s : Sys)
    (hreach : Reach (bs.map progOf) s) (i j : Nat) (ri rj : List ReqAction)
    (hi : s.threads[i]? = some ri) (hj : s.threads[j]? = some rj)
    (h48i : inside48 ri = true) (h48j : inside48 rj = true) : i = j := by
  have hwb : ∀ p ∈ bs.map progOf, wbProg p := by
    intro p hp
    obtain ⟨b, _, rfl⟩ := List.mem_map.1 hp
    exact wbProg_progOf b
  have hinv := reach_loopInv hwb hreach
  obtain ⟨hlen, hsuf, hlock, hpost⟩ := hinv
  have hinv' : LoopInv (bs.map progOf) s := ⟨hlen, hsuf, hlock, hpost⟩
  simp only [inside48, Bool.or_eq_true] at h48i h48j
  rcases h48i with hLi | hPi
  · rcases h48j with hLj | hPj
    · exact Option.some.inj
        ((locked_head_lock hwb hinv' hi hLi).symm.trans (locked_head_lock hwb hinv' hj hLj))
    · have h1 := locked_head_lock hwb hinv' hi hLi
      have h2 := (hpost j rj hj hPj).2
      rw [h2] at h1
      cases h1
  · rcases h48j with hLj | hPj
    · have h1 := locked_head_lock hwb hinv' hj hLj
      have h2 := (hpost i ri hi hPi).2
      rw [h2] at h1
      cases h1
    · have h1 := (hpost i ri hi hPi).1
      have h2 := (hpost j rj hj hPj).1
      rw [h1] at h2
      exact Option.some.inj h2

/-- C3: in every reachable state of the event loop, under any number of
concurrent requests with any behaviours, at most one request is inside the
engine's generation call: two requests both between `genStart` and `genEnd`
are the same request, so engine invocations never overlap. -/
theorem engine_call_mutually_exclusive (bs : List Behavior) (s : Sys)
    (hreach : Reach (bs.map progOf) s) (i j : Nat) (ri rj : List ReqAction)
    (hi : s.threads[i]? = some ri) (hj : s.threads[j]? = some rj)
    (hgi : inGen ri = true) (hgj : inGen rj = true) : i = j := by
  have hwb : ∀ p ∈ bs.map progOf, wbProg p := by
    intro p hp
    obtain ⟨b, _, rfl⟩ := List.mem_map.1 hp
    exact wbProg_progOf b
  have hinv := reach_loopInv hwb hreach
  have h1 := locked_head_lock hwb hinv hi (lockedHeaded_of_inGen hgi)
  have h2 := locked_head_lock hwb hinv hj (lockedHeaded_of_inGen hgj)
  exact Option.some.inj (h1.symm.trans h2)

/-- Witness for `pipeline_steps_mutually_exclusive`: with two concurrent
requests, run the first through validation, gate acquisition, encoding and
generation, let it resume after the generation suspension, release the gate
and begin normalisation; the resulting state is reachable and the request
is inside the post-release part of steps 4-8, so the theorem applies to it. -/
theorem pipeline_steps_mutually_exclusive_witness : (0 : Nat) = 0 := by
  have h0 : Reach ([Behavior.ok, Behavior.ok].map progOf)
      (initSys ([Behavior.ok, Behavior.ok].map progOf)) := Relation.ReflTransGen.refl
  have h1 := Relation.ReflTransGen.tail h0
    (SysStep.sched _ 0 ReqAction.validate _ rfl rfl True.intro)
  have h2 := Relation.ReflTransGen.tail h1
    (SysStep.act _ 0 ReqAction.validate _ rfl rfl True.intro)
  have h3 := Relation.ReflTransGen.tail h2
    (SysStep.act _ 0 ReqAction.resolveP _ rfl rfl True.intro)
  have h4 := Relation.ReflTransGen.tail h3
    (SysStep.act _ 0 ReqAction.acquire _ rfl rfl rfl)
  have h5 := Relation.ReflTransGen.tail h4
    (SysStep.act _ 0 ReqAction.beginEnc _ rfl rfl True.intro)
  have h6 := Relation.ReflTransGen.tail h5
    (SysStep.act _ 0 ReqAction.endEnc _ rfl rfl True.intro)
  have h7 := Relation.ReflTransGen.tail h6
    (SysStep.act _ 0 ReqAction.genStart _ rfl rfl True.intro)
  have h8 := Relation.ReflTransGen.tail h7
    (SysStep.sched _ 0 ReqAction.genEnd _ rfl rfl True.intro)
  have h9 := Relation.ReflTransGen.tail h8
    (SysStep.act _ 0 ReqAction.genEnd _ rfl rfl True.intro)
  have h10 := Relation.ReflTransGen.tail h9
    (SysStep.act _ 0 ReqAction.release _ rfl rfl rfl)
  have h11 := Relation.ReflTransGen.tail h10
    (SysStep.act _ 0 ReqAction.beginNorm _ rfl rfl True.intro)
  exact pipeline_steps_mutually_exclusive [Behavior.ok, Behavior.ok] _ h11 0 0 _ _
    rfl rfl rfl rfl

/-- Witness for `engine_call_mutually_exclusive`: schedule one request
through validation, gate acquisition and encoding into the engine call; the
resulting state is reachable, the request is inside the generation call,
and the theorem applies to it. -/
theorem engine_call_mutually_exclusive_witness : (0 : Nat) = 0 := by
  have h0 : Reach ([Behavior.ok].map progOf) (initSys ([Behavior.ok].map progOf)) :=
    Relation.ReflTransGen.refl
  have h1 := Relation.ReflTransGen.tail h0
    (SysStep.sched _ 0 ReqAction.validate _ rfl rfl True.intro)
  have h2 := Relation.ReflTransGen.tail h1
    (SysStep.act _ 0 ReqAction.validate _ rfl rfl True.intro)
  have h3 := Relation.ReflTransGen.tail h2
    (SysStep.act _ 0 ReqAction.resolveP _ rfl rfl True.intro)
  have h4 := Relation.ReflTransGen.tail h3
    (SysStep.act _ 0 ReqAction.acquire _ rfl rfl rfl)
  have h5 := Relation.ReflTransGen.tail h4
    (SysStep.act _ 0 ReqAction.beginEnc _ rfl rfl True.intro)
  have h6 := Relation.ReflTransGen.tail h5
    (SysStep.act _ 0 ReqAction.endEnc _ rfl rfl True.intro)
  have h7 := Relation.ReflTransGen.tail h6
    (SysStep.act _ 0 ReqAction.genStart _ rfl rfl True.intro)
  exact engine_call_mutually_exclusive [Behavior.ok] _ h7 0 0 _ _ rfl rfl rfl rfl
